import Mathlib

/-!
Verification of the model-resolution core of `src/lib/llm/LLMProvider.ts`.

The source file contains two variants of the module, separated by a document
marker.  Variant A (lines 1–219) parses any `/`-containing identifier into a
2-segment `subProvider/subModel` pair and recognizes twelve sub-providers.
Variant B (lines 220–426) resolves every identifier through its static table
first; its table additionally contains 3-segment `aisdk/<sub>/<model>` keys
mapped to the provider kind `"aisdk"`, and it recognizes three sub-providers.

Machine strings are Lean `String`s.  JavaScript's `modelName.includes("/")`
and `modelName.split("/")` are embedded as the character-list functions
`includesChar` and `splitOnChar` below (for a one-character separator,
`String.prototype.split` yields the maximal `/`-free segments, keeping empty
segments, and `"".split("/") = [""]`).  The TS object literal
`modelToProviderMap` is embedded as an association list in insertion order;
`Object.keys` / `Object.values` are the first/second projections in that
order, and `[...new Set(xs)]` is first-occurrence deduplication.

Throwing functions are embedded as `Except`: `getClient` returns
`Except LLMError LLMClient`, and `cleanRequestCache` returns
`Except String _` (the `.error` case standing for the `TypeError` that
`this.cache.deleteCacheForRequestId` would raise were `this.cache`
`undefined`).  The logger callback is not modelled as a value; instead every
operation that logs returns the list of `LogLine`s it would have emitted.
Vendor SDK constructors (`openai(...)`, `anthropic(...)`, …) are out of
scope in the spec; they are embedded as the constructors of the inductive
type `LanguageModel`, which records which vendor adapter was invoked and
with which sub-model name.
-/

/-- Equality of `Except` results is decidable when both components' is;
used to evaluate embedded operations on concrete inputs. -/
instance {ε α : Type} [DecidableEq ε] [DecidableEq α] : DecidableEq (Except ε α) := fun x y =>
  match x, y with
  | .ok a, .ok b =>
    if h : a = b then .isTrue (by rw [h])
    else .isFalse (by intro hh; injection hh; contradiction)
  | .error a, .error b =>
    if h : a = b then .isTrue (by rw [h])
    else .isFalse (by intro hh; injection hh; contradiction)
  | .ok _, .error _ => .isFalse (by intro hh; cases hh)
  | .error _, .ok _ => .isFalse (by intro hh; cases hh)

/-- JS `s.includes(c)` for a single character `c`. -/
def includesChar (s : String) (c : Char) : Bool := s.toList.contains c

/-- Auxiliary for `splitOnChar`: walks the characters, `acc` holding the
(reversed) characters of the current segment. -/
def splitOnCharAux (c : Char) : List Char → List Char → List String
  | [], acc => [String.mk acc.reverse]
  | x :: xs, acc =>
    if x = c then String.mk acc.reverse :: splitOnCharAux c xs []
    else splitOnCharAux c xs (x :: acc)

/-- JS `s.split(c)` for a one-character separator `c`: the maximal `c`-free
segments of `s`, empty segments kept, `[""]` on the empty string. -/
def splitOnChar (s : String) (c : Char) : List String := splitOnCharAux c s.toList []

/-- Lookup in an association list embedded from a TS object literal: the
value stored under the first matching key. -/
def lookupMap : List (String × String) → String → Option String
  | [], _ => none
  | (k, v) :: rest, key => if key = k then some v else lookupMap rest key

/-- JS `Object.keys` on the embedded object literal: keys in insertion order. -/
def objectKeys (m : List (String × String)) : List String := m.map Prod.fst

/-- JS `Object.values` on the embedded object literal: values in insertion order. -/
def objectValues (m : List (String × String)) : List String := m.map Prod.snd

/-- JS `[...new Set(xs)]`: deduplication keeping first occurrences. -/
def setDedup (l : List String) : List String :=
  l.foldl (fun acc x => if acc.contains x then acc else acc ++ [x]) []

/-- Caller-supplied `ClientOptions`: opaque to the resolution core, threaded
through unchanged; embedded as an abstract identifier. -/
structure ClientOptions where
  optId : Nat
deriving DecidableEq

/-- A constructed vendor model handle (the `LanguageModel` returned by the
vendor SDK constructors).  Each constructor records which adapter built the
handle and for which sub-model name. -/
inductive LanguageModel where
  | openai (model : String)
  | anthropic (model : String)
  | google (model : String)
  | xai (model : String)
  | azure (model : String)
  | groq (model : String)
  | cerebras (model : String)
  | togetherai (model : String)
  | mistral (model : String)
  | deepseek (model : String)
  | perplexity (model : String)
  | ollama (model : String)
deriving DecidableEq

/-- The shared `LLMCache`.  Its storage engine is out of scope; the spec only
requires entries keyed by a content fingerprint plus a request id, with bulk
deletion by request id, so an entry is embedded as a
`(requestId, fingerprint)` pair. -/
structure LLMCache where
  entries : List (String × String)
deriving DecidableEq

/-- Modelled from the spec: the cache's `deleteCacheForRequestId` (the
`LLMCache` implementation is not under `src/`); per the cache contract it
removes every entry associated with the given request id and nothing else. -/
def LLMCache.deleteCacheForRequestId (c : LLMCache) (requestId : String) : LLMCache :=
  { entries := c.entries.filter (fun e => e.fst ≠ requestId) }

/-- One emitted log line (the argument passed to the logger callback). -/
structure LogLine where
  category : String
  message : String
  level : Nat
  auxRequestId : Option String
deriving DecidableEq

/-- The error taxonomy of the module.  `UnsupportedModelError` and
`UnsupportedModelProviderError` are the imported error classes with their
payloads; the two generic `throw new Error(...)` sites are embedded as the
last two constructors, carrying the interpolated datum
(spec names: MalformedIdentifier and UnsupportedSubProvider). -/
inductive LLMError where
  | UnsupportedModelError (supportedModels : List String)
  | UnsupportedModelProviderError (supportedProviders : List String)
  | InvalidAISdkModelFormat (modelName : String)
  | UnsupportedAISdkSubProvider (subProvider : String)
deriving DecidableEq

/-- The constructed client variants.  Every variant records the caching flag
and the cache reference it was handed; the vendor-specific variants also
record the model name and client options, while the generic multi-vendor
`AISdkClient` records the injected model handle.  (The logger reference,
threaded unchanged to every variant, is not modelled as a field.) -/
inductive LLMClient where
  | AISdkClient (model : LanguageModel) (enableCaching : Bool) (cache : Option LLMCache)
  | OpenAIClient (enableCaching : Bool) (cache : Option LLMCache)
      (modelName : String) (clientOptions : Option ClientOptions)
  | AnthropicClient (enableCaching : Bool) (cache : Option LLMCache)
      (modelName : String) (clientOptions : Option ClientOptions)
  | CerebrasClient (enableCaching : Bool) (cache : Option LLMCache)
      (modelName : String) (clientOptions : Option ClientOptions)
  | GroqClient (enableCaching : Bool) (cache : Option LLMCache)
      (modelName : String) (clientOptions : Option ClientOptions)
  | GoogleClient (enableCaching : Bool) (cache : Option LLMCache)
      (modelName : String) (clientOptions : Option ClientOptions)
deriving DecidableEq

/-- The cache reference a constructed client received. -/
def clientCache : LLMClient → Option LLMCache
  | .AISdkClient _ _ cache => cache
  | .OpenAIClient _ cache _ _ => cache
  | .AnthropicClient _ cache _ _ => cache
  | .CerebrasClient _ cache _ _ => cache
  | .GroqClient _ cache _ _ => cache
  | .GoogleClient _ cache _ _ => cache

/-- The vendor kind of a constructed client (which class was instantiated). -/
def clientKind : LLMClient → String
  | .AISdkClient _ _ _ => "aisdk"
  | .OpenAIClient _ _ _ _ => "openai"
  | .AnthropicClient _ _ _ _ => "anthropic"
  | .CerebrasClient _ _ _ _ => "cerebras"
  | .GroqClient _ _ _ _ => "groq"
  | .GoogleClient _ _ _ _ => "google"

/-- The facade's instance state: the caching flag and the (optional) shared
cache.  The logger field is not modelled as a value (see module comment). -/
structure LLMProvider where
  enableCaching : Bool
  cache : Option LLMCache
deriving DecidableEq

/-- The `LLMProvider` constructor: `this.cache = enableCaching ? new
LLMCache(logger) : undefined`; a fresh `LLMCache` starts with no entries. -/
def LLMProvider.create (enableCaching : Bool) : LLMProvider :=
  { enableCaching := enableCaching
    cache := if enableCaching then some { entries := [] } else none }

/-- `LLMProvider.cleanRequestCache` (identical in both variants): early
return when caching is disabled; otherwise log the trace line and delegate to
`this.cache.deleteCacheForRequestId`.  Returns the updated facade state and
the emitted log lines; `.error` stands for the `TypeError` that dereferencing
an `undefined` `this.cache` would raise. -/
def LLMProvider.cleanRequestCache (p : LLMProvider) (requestId : String) :
    Except String (LLMProvider × List LogLine) :=
  if p.enableCaching = false then .ok (p, [])
  else
    match p.cache with
    | none => .error "TypeError: this.cache is undefined"
    | some c =>
      .ok ({ p with cache := some (c.deleteCacheForRequestId requestId) },
        [{ category := "llm_cache", message := "cleaning up cache", level := 1,
           auxRequestId := some requestId }])

namespace VariantA

/-- The static identifier-to-provider table of variant A
(`src/lib/llm/LLMProvider.ts` lines 35–67), in insertion order. -/
def modelToProviderMap : List (String × String) :=
  [("gpt-4.1", "openai"),
   ("gpt-4.1-mini", "openai"),
   ("gpt-4.1-nano", "openai"),
   ("o4-mini", "openai"),
   ("o3", "openai"),
   ("o3-mini", "openai"),
   ("o1", "openai"),
   ("o1-mini", "openai"),
   ("gpt-4o", "openai"),
   ("gpt-4o-mini", "openai"),
   ("gpt-4o-2024-08-06", "openai"),
   ("gpt-4.5-preview", "openai"),
   ("o1-preview", "openai"),
   ("claude-3-5-sonnet-latest", "anthropic"),
   ("claude-3-5-sonnet-20240620", "anthropic"),
   ("claude-3-5-sonnet-20241022", "anthropic"),
   ("claude-3-7-sonnet-20250219", "anthropic"),
   ("claude-3-7-sonnet-latest", "anthropic"),
   ("cerebras-llama-3.3-70b", "cerebras"),
   ("cerebras-llama-3.1-8b", "cerebras"),
   ("groq-llama-3.3-70b-versatile", "groq"),
   ("groq-llama-3.3-70b-specdec", "groq"),
   ("gemini-1.5-flash", "google"),
   ("gemini-1.5-pro", "google"),
   ("gemini-1.5-flash-8b", "google"),
   ("gemini-2.0-flash-lite", "google"),
   ("gemini-2.0-flash", "google"),
   ("gemini-2.5-flash-preview-04-17", "google"),
   ("gemini-2.5-pro-preview-03-25", "google")]

/-- Variant A's `switch (subProvider)` (lines 112–151): the vendor handle
built for a recognized sub-provider, `none` for the `default` branch. -/
def aiSdkLanguageModel (subProvider subModelName : String) : Option LanguageModel :=
  if subProvider = "openai" then some (.openai subModelName)
  else if subProvider = "anthropic" then some (.anthropic subModelName)
  else if subProvider = "google" then some (.google subModelName)
  else if subProvider = "xai" then some (.xai subModelName)
  else if subProvider = "azure" then some (.azure subModelName)
  else if subProvider = "groq" then some (.groq subModelName)
  else if subProvider = "cerebras" then some (.cerebras subModelName)
  else if subProvider = "togetherai" then some (.togetherai subModelName)
  else if subProvider = "mistral" then some (.mistral subModelName)
  else if subProvider = "deepseek" then some (.deepseek subModelName)
  else if subProvider = "perplexity" then some (.perplexity subModelName)
  else if subProvider = "ollama" then some (.ollama subModelName)
  else none

/-- Variant A's `getClient` (lines 99–212): `/`-containing identifiers are
split and must have exactly 2 segments; the sub-provider switch either
builds a handle for an `AISdkClient` or throws; flat identifiers go through
the table and the per-provider constructor switch. -/
def getClient (p : LLMProvider) (modelName : String)
    (clientOptions : Option ClientOptions) : Except LLMError LLMClient :=
  if includesChar modelName '/' then
    match splitOnChar modelName '/' with
    | [subProvider, subModelName] =>
      match aiSdkLanguageModel subProvider subModelName with
      | some languageModel =>
        .ok (.AISdkClient languageModel p.enableCaching p.cache)
      | none => .error (.UnsupportedAISdkSubProvider subProvider)
    | _ => .error (.InvalidAISdkModelFormat modelName)
  else
    match lookupMap modelToProviderMap modelName with
    | none => .error (.UnsupportedModelError (objectKeys modelToProviderMap))
    | some provider =>
      if provider = "openai" then
        .ok (.OpenAIClient p.enableCaching p.cache modelName clientOptions)
      else if provider = "anthropic" then
        .ok (.AnthropicClient p.enableCaching p.cache modelName clientOptions)
      else if provider = "cerebras" then
        .ok (.CerebrasClient p.enableCaching p.cache modelName clientOptions)
      else if provider = "groq" then
        .ok (.GroqClient p.enableCaching p.cache modelName clientOptions)
      else if provider = "google" then
        .ok (.GoogleClient p.enableCaching p.cache modelName clientOptions)
      else .error (.UnsupportedModelProviderError (setDedup (objectValues modelToProviderMap)))

/-- Variant A's static `getModelProvider` (lines 214–218): the raw table
lookup, `none` embedding the `undefined` it returns for unknown keys. -/
def getModelProvider (modelName : String) : Option String :=
  lookupMap modelToProviderMap modelName

end VariantA

namespace VariantB

/-- The static identifier-to-provider table of variant B
(`src/lib/llm/LLMProvider.ts` lines 243–300), in insertion order: the same
flat entries as variant A, followed by the `aisdk`-valued entries (note the
source's third `aisdk` key lacks the slash between `anthropic` and the model
name). -/
def modelToProviderMap : List (String × String) :=
  [("gpt-4.1", "openai"),
   ("gpt-4.1-mini", "openai"),
   ("gpt-4.1-nano", "openai"),
   ("o4-mini", "openai"),
   ("o3", "openai"),
   ("o3-mini", "openai"),
   ("o1", "openai"),
   ("o1-mini", "openai"),
   ("gpt-4o", "openai"),
   ("gpt-4o-mini", "openai"),
   ("gpt-4o-2024-08-06", "openai"),
   ("gpt-4.5-preview", "openai"),
   ("o1-preview", "openai"),
   ("claude-3-5-sonnet-latest", "anthropic"),
   ("claude-3-5-sonnet-20240620", "anthropic"),
   ("claude-3-5-sonnet-20241022", "anthropic"),
   ("claude-3-7-sonnet-20250219", "anthropic"),
   ("claude-3-7-sonnet-latest", "anthropic"),
   ("cerebras-llama-3.3-70b", "cerebras"),
   ("cerebras-llama-3.1-8b", "cerebras"),
   ("groq-llama-3.3-70b-versatile", "groq"),
   ("groq-llama-3.3-70b-specdec", "groq"),
   ("gemini-1.5-flash", "google"),
   ("gemini-1.5-pro", "google"),
   ("gemini-1.5-flash-8b", "google"),
   ("gemini-2.0-flash-lite", "google"),
   ("gemini-2.0-flash", "google"),
   ("gemini-2.5-flash-preview-04-17", "google"),
   ("gemini-2.5-pro-preview-03-25", "google"),
   ("aisdk/anthropic/claude-3-5-sonnet-latest", "aisdk"),
   ("aisdk/anthropic/claude-3-5-sonnet-20240620", "aisdk"),
   ("aisdk/anthropicclaude-3-5-sonnet-20241022", "aisdk"),
   ("aisdk/anthropic/claude-3-7-sonnet-20250219", "aisdk"),
   ("aisdk/anthropic/claude-3-7-sonnet-latest", "aisdk"),
   ("aisdk/google/gemini-1.5-flash", "aisdk"),
   ("aisdk/google/gemini-1.5-pro", "aisdk"),
   ("aisdk/google/gemini-1.5-flash-8b", "aisdk"),
   ("aisdk/google/gemini-2.0-flash-lite", "aisdk"),
   ("aisdk/google/gemini-2.0-flash", "aisdk"),
   ("aisdk/google/gemini-2.5-flash-preview-04-17", "aisdk"),
   ("aisdk/google/gemini-2.5-pro-preview-03-25", "aisdk"),
   ("aisdk/openai/gpt-4.1", "aisdk"),
   ("aisdk/openai/gpt-4.1-mini", "aisdk"),
   ("aisdk/openai/gpt-4.1-nano", "aisdk"),
   ("aisdk/openai/o4-mini", "aisdk"),
   ("aisdk/openai/o3", "aisdk"),
   ("aisdk/openai/o3-mini", "aisdk"),
   ("aisdk/openai/o1", "aisdk"),
   ("aisdk/openai/o1-mini", "aisdk"),
   ("aisdk/openai/gpt-4o", "aisdk"),
   ("aisdk/openai/gpt-4o-mini", "aisdk"),
   ("aisdk/openai/gpt-4o-2024-08-06", "aisdk"),
   ("aisdk/openai/gpt-4.5-preview", "aisdk"),
   ("aisdk/openai/o1-preview", "aisdk")]

/-- The `aisdk`-valued tail of variant B's table: the entries following the
flat block shared with variant A. -/
def aisdkTail : List (String × String) :=
  [("aisdk/anthropic/claude-3-5-sonnet-latest", "aisdk"),
   ("aisdk/anthropic/claude-3-5-sonnet-20240620", "aisdk"),
   ("aisdk/anthropicclaude-3-5-sonnet-20241022", "aisdk"),
   ("aisdk/anthropic/claude-3-7-sonnet-20250219", "aisdk"),
   ("aisdk/anthropic/claude-3-7-sonnet-latest", "aisdk"),
   ("aisdk/google/gemini-1.5-flash", "aisdk"),
   ("aisdk/google/gemini-1.5-pro", "aisdk"),
   ("aisdk/google/gemini-1.5-flash-8b", "aisdk"),
   ("aisdk/google/gemini-2.0-flash-lite", "aisdk"),
   ("aisdk/google/gemini-2.0-flash", "aisdk"),
   ("aisdk/google/gemini-2.5-flash-preview-04-17", "aisdk"),
   ("aisdk/google/gemini-2.5-pro-preview-03-25", "aisdk"),
   ("aisdk/openai/gpt-4.1", "aisdk"),
   ("aisdk/openai/gpt-4.1-mini", "aisdk"),
   ("aisdk/openai/gpt-4.1-nano", "aisdk"),
   ("aisdk/openai/o4-mini", "aisdk"),
   ("aisdk/openai/o3", "aisdk"),
   ("aisdk/openai/o3-mini", "aisdk"),
   ("aisdk/openai/o1", "aisdk"),
   ("aisdk/openai/o1-mini", "aisdk"),
   ("aisdk/openai/gpt-4o", "aisdk"),
   ("aisdk/openai/gpt-4o-mini", "aisdk"),
   ("aisdk/openai/gpt-4o-2024-08-06", "aisdk"),
   ("aisdk/openai/gpt-4.5-preview", "aisdk"),
   ("aisdk/openai/o1-preview", "aisdk")]

/-- Variant B's table is its flat block (variant A's table) followed by the
`aisdk` tail, entry for entry. -/
theorem modelToProviderMap_eq_append :
    modelToProviderMap = VariantA.modelToProviderMap ++ aisdkTail := rfl

/-- Variant B's `switch (subProvider)` (lines 350–362): only `openai`,
`anthropic` and `google` are recognized. -/
def aiSdkLanguageModel (subProvider subModelName : String) : Option LanguageModel :=
  if subProvider = "openai" then some (.openai subModelName)
  else if subProvider = "anthropic" then some (.anthropic subModelName)
  else if subProvider = "google" then some (.google subModelName)
  else none

/-- Variant B's `getClient` (lines 332–419): the table is consulted first
for every identifier; an `"aisdk"`-valued entry is then split and must have
exactly 3 segments (the first, the namespace, is dropped); otherwise the
per-provider constructor switch runs as in variant A. -/
def getClient (p : LLMProvider) (modelName : String)
    (clientOptions : Option ClientOptions) : Except LLMError LLMClient :=
  match lookupMap modelToProviderMap modelName with
  | none => .error (.UnsupportedModelError (objectKeys modelToProviderMap))
  | some provider =>
    if provider = "aisdk" then
      match splitOnChar modelName '/' with
      | [_, subProvider, subModelName] =>
        match aiSdkLanguageModel subProvider subModelName with
        | some languageModel =>
          .ok (.AISdkClient languageModel p.enableCaching p.cache)
        | none => .error (.UnsupportedAISdkSubProvider subProvider)
      | _ => .error (.InvalidAISdkModelFormat modelName)
    else
      if provider = "openai" then
        .ok (.OpenAIClient p.enableCaching p.cache modelName clientOptions)
      else if provider = "anthropic" then
        .ok (.AnthropicClient p.enableCaching p.cache modelName clientOptions)
      else if provider = "cerebras" then
        .ok (.CerebrasClient p.enableCaching p.cache modelName clientOptions)
      else if provider = "groq" then
        .ok (.GroqClient p.enableCaching p.cache modelName clientOptions)
      else if provider = "google" then
        .ok (.GoogleClient p.enableCaching p.cache modelName clientOptions)
      else .error (.UnsupportedModelProviderError (setDedup (objectValues modelToProviderMap)))

/-- Variant B's static `getModelProvider` (lines 421–425). -/
def getModelProvider (modelName : String) : Option String :=
  lookupMap modelToProviderMap modelName

end VariantB

/-- The input to client resolution: either a model identifier string or an
already-constructed model handle. -/
inductive ModelInput where
  | str (s : String)
  | handle (m : LanguageModel)
deriving DecidableEq

/-- Modelled from the spec: the opaque-handle branch of client resolution is
absent from `src/` (`getClient` there accepts only identifier strings); per
spec §4.3 step 1, an already-constructed model handle routes directly to the
generic multi-vendor client with the handle injected as-is, and a string is
resolved by `getClient`. -/
def LLMProvider.resolveInput (p : LLMProvider) (input : ModelInput)
    (clientOptions : Option ClientOptions) : Except LLMError LLMClient :=
  match input with
  | .handle m => .ok (.AISdkClient m p.enableCaching p.cache)
  | .str s => VariantA.getClient p s clientOptions

/-! Helper lemmas about `lookupMap`. -/

theorem lookupMap_eq_none_of_not_mem_keys (m : List (String × String)) (k : String)
    (h : k ∉ objectKeys m) : lookupMap m k = none := by
  induction m with
  | nil => rfl
  | cons kv rest ih =>
    obtain ⟨k', v'⟩ := kv
    simp only [objectKeys, List.map_cons, List.mem_cons, not_or] at h
    simp only [lookupMap, if_neg h.1]
    exact ih (by simpa [objectKeys] using h.2)

theorem mem_of_lookupMap_eq_some (m : List (String × String)) (k v : String)
    (h : lookupMap m k = some v) : (k, v) ∈ m := by
  induction m with
  | nil => cases h
  | cons kv rest ih =>
    obtain ⟨k', v'⟩ := kv
    simp only [lookupMap] at h
    split at h
    · rename_i hk
      injection h with h
      subst hk
      subst h
      exact List.mem_cons_self _ _
    · exact List.mem_cons_of_mem _ (ih h)

theorem lookupMap_append_some (m₁ m₂ : List (String × String)) (k v : String)
    (h : lookupMap m₁ k = some v) : lookupMap (m₁ ++ m₂) k = some v := by
  induction m₁ with
  | nil => cases h
  | cons kv rest ih =>
    obtain ⟨k', v'⟩ := kv
    by_cases hk : k = k'
    · subst hk
      simp only [lookupMap, if_pos rfl] at h ⊢
      exact h
    · simp only [lookupMap, if_neg hk] at h ⊢
      exact ih h

theorem lookupMap_append_none (m₁ m₂ : List (String × String)) (k : String)
    (h : lookupMap m₁ k = none) : lookupMap (m₁ ++ m₂) k = lookupMap m₂ k := by
  induction m₁ with
  | nil => rfl
  | cons kv rest ih =>
    obtain ⟨k', v'⟩ := kv
    by_cases hk : k = k'
    · subst hk
      simp only [lookupMap, if_pos rfl] at h
      cases h
    · simp only [lookupMap, if_neg hk] at h ⊢
      exact ih h

/-- Every key of variant B's `aisdk` tail contains a `/`. -/
theorem aisdkTail_keys_slash :
    ∀ kv ∈ VariantB.aisdkTail, includesChar kv.1 '/' = true := by decide

/-- A slash-free identifier is not a key of variant B's `aisdk` tail. -/
theorem lookupMap_aisdkTail_eq_none (s : String) (hs : includesChar s '/' = false) :
    lookupMap VariantB.aisdkTail s = none := by
  apply lookupMap_eq_none_of_not_mem_keys
  intro hmem
  simp only [objectKeys, List.mem_map] at hmem
  obtain ⟨kv, hkv, hfst⟩ := hmem
  have hsl := aisdkTail_keys_slash kv hkv
  rw [hfst] at hsl
  rw [hs] at hsl
  cases hsl

/-- On slash-free identifiers the two tables agree. -/
theorem lookupMapB_flat (s : String) (hs : includesChar s '/' = false) :
    lookupMap VariantB.modelToProviderMap s = lookupMap VariantA.modelToProviderMap s := by
  rw [VariantB.modelToProviderMap_eq_append]
  cases h : lookupMap VariantA.modelToProviderMap s with
  | none => rw [lookupMap_append_none _ _ _ h, lookupMap_aisdkTail_eq_none s hs]
  | some v => rw [lookupMap_append_some _ _ _ _ h]

/-- Every value of variant A's table is one of the five dispatched vendor
kinds. -/
theorem mapA_values_mem :
    ∀ kv ∈ VariantA.modelToProviderMap,
      kv.2 ∈ (["openai", "anthropic", "cerebras", "groq", "google"] : List String) := by decide

/-- Every client variant A's `getClient` constructs receives the facade's
cache reference. -/
theorem getClientA_cache_eq (p : LLMProvider) (m : String) (opts : Option ClientOptions)
    (c : LLMClient) (h : VariantA.getClient p m opts = .ok c) : clientCache c = p.cache := by
  unfold VariantA.getClient at h
  repeat' split at h
  all_goals
    first
      | (injection h with h; subst h; rfl)
      | cases h

/-- Every client variant B's `getClient` constructs receives the facade's
cache reference. -/
theorem getClientB_cache_eq (p : LLMProvider) (m : String) (opts : Option ClientOptions)
    (c : LLMClient) (h : VariantB.getClient p m opts = .ok c) : clientCache c = p.cache := by
  unfold VariantB.getClient at h
  repeat' split at h
  all_goals
    first
      | (injection h with h; subst h; rfl)
      | cases h

/-! Claim theorems. -/

/-- C1: for every model identifier that is a key of the static
identifier-to-provider table (in either variant), the static lookup
`getModelProvider` returns exactly the provider kind recorded for it in the
table — the published table round-trips through the lookup. -/
theorem c1_getModelProvider_roundtrip :
    (VariantA.modelToProviderMap.all
      fun kv => VariantA.getModelProvider kv.1 == some kv.2) = true ∧
    (VariantB.modelToProviderMap.all
      fun kv => VariantB.getModelProvider kv.1 == some kv.2) = true := by
  constructor <;> decide

/-- C2: for every identifier with no `/` separator that is not a key of the
table, `getClient` fails with `UnsupportedModelError` whose payload is
exactly the key list of that variant's table (in insertion order), in both
variants. -/
theorem c2_unsupported_flat_model (p : LLMProvider) (s : String) (opts : Option ClientOptions)
    (h1 : includesChar s '/' = false)
    (h2 : s ∉ objectKeys VariantA.modelToProviderMap) :
    VariantA.getClient p s opts =
      .error (.UnsupportedModelError (objectKeys VariantA.modelToProviderMap)) ∧
    VariantB.getClient p s opts =
      .error (.UnsupportedModelError (objectKeys VariantB.modelToProviderMap)) := by
  have hla : lookupMap VariantA.modelToProviderMap s = none :=
    lookupMap_eq_none_of_not_mem_keys _ _ h2
  have hlb : lookupMap VariantB.modelToProviderMap s = none := by
    rw [lookupMapB_flat s h1, hla]
  constructor
  · simp [VariantA.getClient, h1, hla]
  · simp [VariantB.getClient, hlb]

/-- C2 witness: `"not-a-real-model"` is slash-free and not a table key, and
`getClient` rejects it with the full key list in both variants. -/
theorem c2_witness :
    VariantA.getClient (LLMProvider.create true) "not-a-real-model" none =
      .error (.UnsupportedModelError (objectKeys VariantA.modelToProviderMap)) ∧
    VariantB.getClient (LLMProvider.create true) "not-a-real-model" none =
      .error (.UnsupportedModelError (objectKeys VariantB.modelToProviderMap)) :=
  c2_unsupported_flat_model (LLMProvider.create true) "not-a-real-model" none
    (by decide) (by decide)

/-- C3 counterexample: in variant B, `"aisdk/openai/gpt-5"` is a namespaced
identifier of the supported arity (three segments) whose sub-provider
`"openai"` is in the recognized vendor set, yet `getClient` fails with
`UnsupportedModelError` instead of returning a generic client, because
variant B only resolves namespaced identifiers that are keys of its table. -/
theorem c3_counterexample :
    (splitOnChar "aisdk/openai/gpt-5" '/').length = 3 ∧
    (VariantB.aiSdkLanguageModel "openai" "gpt-5").isSome = true ∧
    VariantB.getClient (LLMProvider.create true) "aisdk/openai/gpt-5" none =
      .error (.UnsupportedModelError (objectKeys VariantB.modelToProviderMap)) :=
  ⟨by decide, by decide, by decide⟩

/-- C3 amended: in variant A, every namespaced identifier that splits into
exactly two segments whose sub-provider segment is recognized yields the
generic `AISdkClient` wrapping the vendor handle built for the pair — never
a vendor-specific client; in particular `getClient("openai/gpt-4.1")`
returns a generic client wrapping an OpenAI handle for `"gpt-4.1"`.
(Variant B resolves namespaced identifiers only through its table.) -/
theorem c3_amended_namespaced_generic_client (p : LLMProvider) (opts : Option ClientOptions)
    (s subProvider subModelName : String) (lm : LanguageModel)
    (h1 : includesChar s '/' = true)
    (h2 : splitOnChar s '/' = [subProvider, subModelName])
    (h3 : VariantA.aiSdkLanguageModel subProvider subModelName = some lm) :
    VariantA.getClient p s opts = .ok (.AISdkClient lm p.enableCaching p.cache) ∧
    VariantA.getClient p "openai/gpt-4.1" opts =
      .ok (.AISdkClient (.openai "gpt-4.1") p.enableCaching p.cache) := by
  constructor
  · simp [VariantA.getClient, h1, h2, h3]
  · rfl

/-- C3 witness: the amended theorem applied at `"openai/gpt-4.1"`. -/
theorem c3_witness :
    VariantA.getClient (LLMProvider.create true) "openai/gpt-4.1" none =
      .ok (.AISdkClient (.openai "gpt-4.1") (LLMProvider.create true).enableCaching
        (LLMProvider.create true).cache) :=
  (c3_amended_namespaced_generic_client (LLMProvider.create true) none
    "openai/gpt-4.1" "openai" "gpt-4.1" (.openai "gpt-4.1")
    (by decide) (by decide) (by decide)).1

/-- C4 counterexample: `"bogus/weird/path/too/long"` contains `/` and has
five segments (not the supported count in either variant), yet variant B's
`getClient` raises `UnsupportedModelError`, not the malformed-identifier
error the claim requires. -/
theorem c4_counterexample :
    includesChar "bogus/weird/path/too/long" '/' = true ∧
    (splitOnChar "bogus/weird/path/too/long" '/').length = 5 ∧
    VariantB.getClient (LLMProvider.create true) "bogus/weird/path/too/long" none =
      .error (.UnsupportedModelError (objectKeys VariantB.modelToProviderMap)) :=
  ⟨by decide, by decide, by decide⟩

/-- C4 amended: in variant A, every `/`-containing identifier that does not
split into exactly two segments raises the malformed-identifier error (in
particular `"bogus/weird/path/too/long"` does); in variant B that same
input raises `UnsupportedModelError` because the table is consulted first,
and the malformed-identifier error arises for a `/`-containing table key of
the wrong segment count (the table's slashless-typo key). -/
theorem c4_amended_malformed_identifier (p : LLMProvider) (opts : Option ClientOptions)
    (s : String)
    (h1 : includesChar s '/' = true)
    (h2 : (splitOnChar s '/').length ≠ 2) :
    VariantA.getClient p s opts = .error (.InvalidAISdkModelFormat s) ∧
    VariantA.getClient p "bogus/weird/path/too/long" opts =
      .error (.InvalidAISdkModelFormat "bogus/weird/path/too/long") ∧
    VariantB.getClient p "bogus/weird/path/too/long" opts =
      .error (.UnsupportedModelError (objectKeys VariantB.modelToProviderMap)) ∧
    VariantB.getClient p "aisdk/anthropicclaude-3-5-sonnet-20241022" opts =
      .error (.InvalidAISdkModelFormat "aisdk/anthropicclaude-3-5-sonnet-20241022") := by
  refine ⟨?_, rfl, rfl, rfl⟩
  rcases hsp : splitOnChar s '/' with _ | ⟨a, _ | ⟨b, _ | ⟨c, rest⟩⟩⟩
  · simp [VariantA.getClient, h1, hsp]
  · simp [VariantA.getClient, h1, hsp]
  · exact absurd (by rw [hsp]; rfl) h2
  · simp [VariantA.getClient, h1, hsp]

/-- C4 witness: the amended theorem applied at
`"bogus/weird/path/too/long"`. -/
theorem c4_witness :
    VariantA.getClient (LLMProvider.create true) "bogus/weird/path/too/long" none =
      .error (.InvalidAISdkModelFormat "bogus/weird/path/too/long") :=
  (c4_amended_malformed_identifier (LLMProvider.create true) none
    "bogus/weird/path/too/long" (by decide) (by decide)).1

/-- C5 counterexample: in variant B, `"aisdk/xai/grok-2"` is a namespaced
identifier of the supported arity (three segments) whose sub-provider
`"xai"` is not in the recognized vendor set, yet `getClient` fails with
`UnsupportedModelError`, not `UnsupportedSubProvider`. -/
theorem c5_counterexample :
    (splitOnChar "aisdk/xai/grok-2" '/').length = 3 ∧
    VariantB.aiSdkLanguageModel "xai" "grok-2" = none ∧
    VariantB.getClient (LLMProvider.create true) "aisdk/xai/grok-2" none =
      .error (.UnsupportedModelError (objectKeys VariantB.modelToProviderMap)) :=
  ⟨by decide, by decide, by decide⟩

/-- C5 amended: in variant A, every namespaced identifier that splits into
exactly two segments whose sub-provider is not recognized fails with the
`UnsupportedAISdkSubProvider` error — an error distinct from the
malformed-identifier error — and no client is constructed.  (In variant B
such identifiers are rejected earlier, by the table, with
`UnsupportedModelError`.) -/
theorem c5_amended_unsupported_subprovider (p : LLMProvider) (opts : Option ClientOptions)
    (s subProvider subModelName : String)
    (h1 : includesChar s '/' = true)
    (h2 : splitOnChar s '/' = [subProvider, subModelName])
    (h3 : VariantA.aiSdkLanguageModel subProvider subModelName = none) :
    VariantA.getClient p s opts = .error (.UnsupportedAISdkSubProvider subProvider) ∧
    ∀ m : String,
      (LLMError.UnsupportedAISdkSubProvider subProvider) ≠ .InvalidAISdkModelFormat m := by
  constructor
  · simp [VariantA.getClient, h1, h2, h3]
  · intro m hm
    cases hm

/-- C5 witness: the amended theorem applied at `"notavendor/model"`. -/
theorem c5_witness :
    VariantA.getClient (LLMProvider.create true) "notavendor/model" none =
      .error (.UnsupportedAISdkSubProvider "notavendor") ∧
    ∀ m : String,
      (LLMError.UnsupportedAISdkSubProvider "notavendor") ≠ .InvalidAISdkModelFormat m :=
  c5_amended_unsupported_subprovider (LLMProvider.create true) none
    "notavendor/model" "notavendor" "model" (by decide) (by decide) (by decide)

/-- C6: resolution of an already-constructed opaque model handle always
succeeds and routes to the generic multi-vendor client with the handle
injected as-is (spec-modelled: the handle branch is absent from the `src/`
`getClient`, which accepts only identifier strings). -/
theorem c6_handle_routes_to_generic_client (p : LLMProvider) (m : LanguageModel)
    (opts : Option ClientOptions) :
    p.resolveInput (.handle m) opts = .ok (.AISdkClient m p.enableCaching p.cache) := rfl

/-- C7: when the facade is constructed with caching disabled, no cache is
created, every client either variant's `getClient` constructs receives an
absent cache reference, and `cleanRequestCache` (for any request id) is a
no-op that raises nothing. -/
theorem c7_caching_disabled_no_cache (m : String) (opts : Option ClientOptions)
    (cA cB : LLMClient) (rid : String)
    (hA : VariantA.getClient (LLMProvider.create false) m opts = .ok cA)
    (hB : VariantB.getClient (LLMProvider.create false) m opts = .ok cB) :
    (LLMProvider.create false).cache = none ∧
    clientCache cA = none ∧ clientCache cB = none ∧
    (LLMProvider.create false).cleanRequestCache rid = .ok (LLMProvider.create false, []) := by
  refine ⟨rfl, ?_, ?_, rfl⟩
  · exact (getClientA_cache_eq _ _ _ _ hA).trans rfl
  · exact (getClientB_cache_eq _ _ _ _ hB).trans rfl

/-- C7 witness: the theorem applied at `"gpt-4o"` and request id `"r1"`. -/
theorem c7_witness :
    (LLMProvider.create false).cache = none ∧
    clientCache (.OpenAIClient false none "gpt-4o" none) = none ∧
    clientCache (.OpenAIClient false none "gpt-4o" none) = none ∧
    (LLMProvider.create false).cleanRequestCache "r1" = .ok (LLMProvider.create false, []) :=
  c7_caching_disabled_no_cache "gpt-4o" none
    (.OpenAIClient false none "gpt-4o" none) (.OpenAIClient false none "gpt-4o" none) "r1"
    (by decide) (by decide)

/-- Deleting a request id's entries twice is the same as deleting them
once. -/
theorem deleteCacheForRequestId_idem (c : LLMCache) (rid : String) :
    (c.deleteCacheForRequestId rid).deleteCacheForRequestId rid =
      c.deleteCacheForRequestId rid := by
  unfold LLMCache.deleteCacheForRequestId
  simp [List.filter_filter]

/-- C8: on any facade state whose cache is present whenever caching is
enabled (the constructor invariant), `cleanRequestCache` never raises; the
second of two successive calls with the same request id returns the same
state and log output as the first (idempotence); and when caching is
enabled the call emits the diagnostic trace line and leaves no cache entry
for that request id. -/
theorem c8_cleanRequestCache_idempotent (p : LLMProvider) (rid : String)
    (hp : p.enableCaching = true → p.cache ≠ none) :
    ∃ p' logs, p.cleanRequestCache rid = .ok (p', logs) ∧
      p'.cleanRequestCache rid = .ok (p', logs) ∧
      (p.enableCaching = true →
        logs = [{ category := "llm_cache", message := "cleaning up cache", level := 1,
                  auxRequestId := some rid }] ∧
        ∀ c', p'.cache = some c' → ∀ e ∈ c'.entries, e.fst ≠ rid) := by
  by_cases hec : p.enableCaching = true
  · obtain ⟨c, hc⟩ := Option.ne_none_iff_exists'.mp (hp hec)
    refine ⟨{ p with cache := some (c.deleteCacheForRequestId rid) },
      [{ category := "llm_cache", message := "cleaning up cache", level := 1,
         auxRequestId := some rid }], ?_, ?_, ?_⟩
    · simp [LLMProvider.cleanRequestCache, hec, hc]
    · simp [LLMProvider.cleanRequestCache, hec, deleteCacheForRequestId_idem]
    · intro _
      refine ⟨rfl, ?_⟩
      intro c' hc' e he
      simp only [Option.some.injEq] at hc'
      subst hc'
      unfold LLMCache.deleteCacheForRequestId at he
      simp only [List.mem_filter, decide_eq_true_eq] at he
      exact he.2
  · have hec' : p.enableCaching = false := by
      cases hcase : p.enableCaching
      · rfl
      · exact absurd hcase hec
    refine ⟨p, [], ?_, ?_, ?_⟩
    · simp [LLMProvider.cleanRequestCache, hec']
    · simp [LLMProvider.cleanRequestCache, hec']
    · intro h
      exact absurd h hec

/-- C8 witness: the theorem applied to an enabled facade holding entries for
two request ids, cleaning `"r1"`. -/
theorem c8_witness :
    ∃ p' logs,
      ({ enableCaching := true,
         cache := some { entries := [("r1", "k1"), ("r2", "k2")] } } :
          LLMProvider).cleanRequestCache "r1" = .ok (p', logs) ∧
      p'.cleanRequestCache "r1" = .ok (p', logs) ∧
      (({ enableCaching := true,
          cache := some { entries := [("r1", "k1"), ("r2", "k2")] } } :
           LLMProvider).enableCaching = true →
        logs = [{ category := "llm_cache", message := "cleaning up cache", level := 1,
                  auxRequestId := some "r1" }] ∧
        ∀ c', p'.cache = some c' → ∀ e ∈ c'.entries, e.fst ≠ "r1") :=
  c8_cleanRequestCache_idempotent
    { enableCaching := true, cache := some { entries := [("r1", "k1"), ("r2", "k2")] } }
    "r1" (by decide)

/-- C9: every client either variant's `getClient` successfully constructs
receives exactly the facade's shared cache reference, so cache state is
shared across all clients obtained from one facade (and `getClient` never
changes the facade state, which is threaded unchanged). -/
theorem c9_shared_cache_instance (p : LLMProvider) (m : String) (opts : Option ClientOptions)
    (c : LLMClient) :
    (VariantA.getClient p m opts = .ok c → clientCache c = p.cache) ∧
    (VariantB.getClient p m opts = .ok c → clientCache c = p.cache) :=
  ⟨getClientA_cache_eq p m opts c, getClientB_cache_eq p m opts c⟩

/-- C9 witness: the theorem applied to the client built for `"gpt-4o"` on a
caching facade. -/
theorem c9_witness :
    clientCache (.OpenAIClient true (some { entries := [] }) "gpt-4o" none) =
      (LLMProvider.create true).cache :=
  (c9_shared_cache_instance (LLMProvider.create true) "gpt-4o" none
    (.OpenAIClient true (some { entries := [] }) "gpt-4o" none)).1 (by decide)

/-- C10: on every flat identifier (no `/`), the two variants agree:
`getModelProvider` returns the same provider kind (or is absent in both),
and `getClient` either constructs clients of the same vendor kind in both
variants or fails with `UnsupportedModelError` in both. -/
theorem c10_flat_identifier_equivalence (p : LLMProvider) (s : String)
    (opts : Option ClientOptions) (hs : includesChar s '/' = false) :
    VariantA.getModelProvider s = VariantB.getModelProvider s ∧
    ((∃ cA cB, VariantA.getClient p s opts = .ok cA ∧ VariantB.getClient p s opts = .ok cB ∧
        clientKind cA = clientKind cB) ∨
      (VariantA.getClient p s opts =
        .error (.UnsupportedModelError (objectKeys VariantA.modelToProviderMap)) ∧
       VariantB.getClient p s opts =
        .error (.UnsupportedModelError (objectKeys VariantB.modelToProviderMap)))) := by
  have hagree := lookupMapB_flat s hs
  constructor
  · unfold VariantA.getModelProvider VariantB.getModelProvider
    rw [hagree]
  · cases hv : lookupMap VariantA.modelToProviderMap s with
    | none =>
      right
      have hvb : lookupMap VariantB.modelToProviderMap s = none := by rw [hagree, hv]
      constructor
      · simp [VariantA.getClient, hs, hv]
      · simp [VariantB.getClient, hvb]
    | some v =>
      left
      have hvb : lookupMap VariantB.modelToProviderMap s = some v := by rw [hagree, hv]
      have hval := mapA_values_mem (s, v) (mem_of_lookupMap_eq_some _ _ _ hv)
      simp only [List.mem_cons, List.not_mem_nil, or_false] at hval
      rcases hval with h | h | h | h | h <;> subst h
      · exact ⟨.OpenAIClient p.enableCaching p.cache s opts,
          .OpenAIClient p.enableCaching p.cache s opts,
          by simp [VariantA.getClient, hs, hv], by simp [VariantB.getClient, hvb], rfl⟩
      · exact ⟨.AnthropicClient p.enableCaching p.cache s opts,
          .AnthropicClient p.enableCaching p.cache s opts,
          by simp [VariantA.getClient, hs, hv], by simp [VariantB.getClient, hvb], rfl⟩
      · exact ⟨.CerebrasClient p.enableCaching p.cache s opts,
          .CerebrasClient p.enableCaching p.cache s opts,
          by simp [VariantA.getClient, hs, hv], by simp [VariantB.getClient, hvb], rfl⟩
      · exact ⟨.GroqClient p.enableCaching p.cache s opts,
          .GroqClient p.enableCaching p.cache s opts,
          by simp [VariantA.getClient, hs, hv], by simp [VariantB.getClient, hvb], rfl⟩
      · exact ⟨.GoogleClient p.enableCaching p.cache s opts,
          .GoogleClient p.enableCaching p.cache s opts,
          by simp [VariantA.getClient, hs, hv], by simp [VariantB.getClient, hvb], rfl⟩

/-- C10 witness: the theorem applied at the flat identifier `"gpt-4o"`. -/
theorem c10_witness :
    VariantA.getModelProvider "gpt-4o" = VariantB.getModelProvider "gpt-4o" ∧
    ((∃ cA cB,
        VariantA.getClient (LLMProvider.create true) "gpt-4o" none = .ok cA ∧
        VariantB.getClient (LLMProvider.create true) "gpt-4o" none = .ok cB ∧
        clientKind cA = clientKind cB) ∨
      (VariantA.getClient (LLMProvider.create true) "gpt-4o" none =
        .error (.UnsupportedModelError (objectKeys VariantA.modelToProviderMap)) ∧
       VariantB.getClient (LLMProvider.create true) "gpt-4o" none =
        .error (.UnsupportedModelError (objectKeys VariantB.modelToProviderMap)))) :=
  c10_flat_identifier_equivalence (LLMProvider.create true) "gpt-4o" none (by decide)
